import Mathlib

/-!
# UrlPay payment gateway — verification of the webhook reconciliation module

Shallow embedding of `app/bot/payment_gateways/urlpay.py`. The Python module
is asynchronous but sequential per delivery; every operation is embedded as a
pure function. External collaborators are modelled as explicit inputs:

* the Transaction store is a function from payment id to an optional record
  (`TxStore`), and store writes are returned as the updated function;
* each outbound HTTP exchange is an explicit response value
  (`FetchResponse`, `CreateResponse`) supplied by the environment;
* JSON payload fields are optional `JsonVal`s, so that Python truthiness
  (`if not x`) and `str(x)` conversions can be mirrored exactly.

Floating point JSON numbers do not occur in the modelled flows; JSON numbers
are embedded as integers. Log statements that matter to the spec (the
advisory uuid cross-checks) are recorded as a list of warning tags.
-/

/-- A JSON scalar as it appears in the webhook payload and provider
responses: string, (integer) number, boolean or null. -/
inductive JsonVal where
  | str (s : String)
  | num (n : Int)
  | bool (b : Bool)
  | null
  deriving DecidableEq, Repr

/-- Python `str(v)` on a JSON scalar. -/
def pyStr : JsonVal → String
  | .str s => s
  | .num n => toString n
  | .bool b => if b then "True" else "False"
  | .null => "None"

/-- Python truthiness of a JSON scalar: empty string, zero, `False` and
`None` are falsy. -/
def pyTruthy : JsonVal → Bool
  | .str s => s ≠ ""
  | .num n => n ≠ 0
  | .bool b => b
  | .null => false

/-- Python truthiness of `d.get(key)`: a missing key (`None`) is falsy. -/
def pyTruthyOpt : Option JsonVal → Bool
  | none => false
  | some v => pyTruthy v

/-- Python truthiness of a nullable string column: `None` and `""` are
falsy. -/
def optStrTruthy : Option String → Bool
  | none => false
  | some s => s ≠ ""

/-- Python `str` of a value that is either a string or `None`
(an f-string interpolation of a nullable configuration field). -/
def pyStrOfOptStr : Option String → String
  | none => "None"
  | some s => s

/-- Transaction lifecycle states (`TransactionStatus` in the source). -/
inductive TransactionStatus where
  | PENDING
  | SUCCEEDED
  | CANCELED
  deriving DecidableEq, Repr

/-- Input to payment creation (`SubscriptionData`). The price is an exact
decimal `price_m / 10 ^ price_e`, mirroring `Decimal(str(data.price))`. -/
structure SubscriptionData where
  user_id : Int
  devices : Nat
  duration : Nat
  price_m : Int
  price_e : Nat
  deriving DecidableEq, Repr

/-- A stored Transaction row. The serialized subscription descriptor
(`data.pack()`, an external collaborator) is modelled by the data itself. -/
structure Transaction where
  tg_id : Int
  subscription : SubscriptionData
  payment_id : String
  payment_uuid : Option String
  status : TransactionStatus
  deriving DecidableEq, Repr

/-- The external Transaction store, keyed by provider payment id
(`payment_id` maps to at most one Transaction). -/
def TxStore := String → Option Transaction

/-- `Transaction.get_by_id(session, payment_id)`. -/
def TxStore.get_by_id (store : TxStore) (payment_id : String) : Option Transaction :=
  store payment_id

/-- `Transaction.update(session, payment_id, payment_uuid)`: set the
`payment_uuid` column of the row keyed by `payment_id`. -/
def TxStore.update (store : TxStore) (payment_id : String) (payment_uuid : String) : TxStore :=
  fun k =>
    if k = payment_id then
      (store k).map fun t => { t with payment_uuid := some payment_uuid }
    else store k

/-- The provider record under the `payment` key of a fetch response body:
a dict with optional `uuid` and `status` entries; `extra` records whether
the dict has further keys (relevant only to Python truthiness of the dict). -/
structure ProviderPayment where
  uuid : Option JsonVal
  status : Option JsonVal
  extra : Bool
  deriving DecidableEq, Repr

/-- Python truthiness of the `payment` dict: truthy iff it has a key. -/
def ProviderPayment.truthy (p : ProviderPayment) : Bool :=
  p.uuid.isSome || p.status.isSome || p.extra

/-- Environment of one `GET /v2/payments/{id}` exchange: HTTP status and the
`success` and `payment` fields of the JSON body. -/
structure FetchResponse where
  status : Nat
  success : Option JsonVal
  payment : Option ProviderPayment
  deriving Repr

/-- `UrlPay._fetch_payment`, with the HTTP exchange supplied as `resp`:
absent API key, non-200 status, missing/falsy `success` flag, or missing
`payment` field all yield `none` (never an error). -/
def fetch_payment (api_key : Option String) (resp : FetchResponse) : Option ProviderPayment :=
  if !optStrTruthy api_key then none
  else if resp.status ≠ 200 then none
  else if !pyTruthyOpt resp.success then none
  else resp.payment

/-- The parsed JSON body of an inbound webhook: the three fields the
handler reads, each possibly absent. -/
structure Payload where
  payment_status : Option JsonVal
  id : Option JsonVal
  uuid : Option JsonVal
  deriving DecidableEq, Repr

/-- Result of `_verify_callback`: the confirmed payment id (or `none` for
reject), the possibly updated store, and the warning tags logged. -/
structure VerifyOutcome where
  result : Option String
  store : TxStore
  logs : List String

/-- The `status_map` dict of `_verify_callback`:
`{"success": {3}, "cancel": {4, 5, 6}}`, looked up with `.get`. -/
def status_map : String → Option (List Int)
  | "success" => some [3]
  | "cancel" => some [4, 5, 6]
  | _ => none

/-- Python `v in s` for an optional JSON scalar against a set of ints
(a missing key gives `None`, which is in no set; `True`/`False` equal
`1`/`0`; strings never equal ints). -/
def jsonInIntSet (v : Option JsonVal) (s : List Int) : Bool :=
  match v with
  | some (.num n) => s.contains n
  | some (.bool b) => s.contains (if b then 1 else 0)
  | _ => false

/-- Continuation of `_verify_callback` after the uuid bind/verify step
(source lines 219–253): authoritative fetch, advisory uuid cross-checks
(logged only), and the decisive status-code validation. `transaction` is
the in-memory row, already carrying a bound `payment_uuid` when the bind
branch ran. -/
def verify_rest (payment_status : String) (payment_uuid_val : JsonVal)
    (payment_id : String) (transaction : Transaction) (store : TxStore)
    (logs : List String) (fetch : String → Option ProviderPayment) : VerifyOutcome :=
  match fetch payment_id with
  | none => ⟨none, store, logs⟩
  | some payment =>
    if !payment.truthy then ⟨none, store, logs⟩
    else
      let logs := logs ++
        (if pyTruthyOpt payment.uuid &&
            pyStr (payment.uuid.getD .null) ≠ pyStr payment_uuid_val then
          ["uuid mismatch with API"] else [])
      let logs := logs ++
        (if optStrTruthy transaction.payment_uuid && pyTruthyOpt payment.uuid &&
            transaction.payment_uuid.getD "" ≠ pyStr (payment.uuid.getD .null) then
          ["uuid mismatch between database and API"] else [])
      match status_map payment_status with
      | none => ⟨some payment_id, store, logs⟩
      | some expected_status =>
        if !jsonInIntSet payment.status expected_status then
          ⟨none, store, logs ++ ["status mismatch"]⟩
        else ⟨some payment_id, store, logs⟩

/-- `UrlPay._verify_callback(payload, payment_status)`: extract `id` and
`uuid` from the payload, look the Transaction up, bind or verify the
correlation uuid, then hand off to the fetch/status phase. -/
def verify_callback (payload : Payload) (payment_status : String) (store : TxStore)
    (fetch : String → Option ProviderPayment) : VerifyOutcome :=
  match payload.id with
  | none => ⟨none, store, ["missing payment id"]⟩
  | some payment_id_raw =>
    let payment_id := pyStr payment_id_raw
    match payload.uuid with
    | none => ⟨none, store, ["missing uuid"]⟩
    | some payment_uuid_val =>
      if !pyTruthy payment_uuid_val then ⟨none, store, ["missing uuid"]⟩
      else
        match store.get_by_id payment_id with
        | none => ⟨none, store, ["unknown payment id"]⟩
        | some transaction =>
          if optStrTruthy transaction.payment_uuid then
            if transaction.payment_uuid.getD "" ≠ pyStr payment_uuid_val then
              ⟨none, store, ["uuid mismatch with database"]⟩
            else
              verify_rest payment_status payment_uuid_val payment_id transaction store [] fetch
          else
            let bound := pyStr payment_uuid_val
            verify_rest payment_status payment_uuid_val payment_id
              { transaction with payment_uuid := some bound }
              (store.update payment_id bound) [] fetch

/-- A success/cancel hook invocation dispatched by the handler. -/
inductive Hook where
  | succeeded (payment_id : String)
  | canceled (payment_id : String)
  deriving DecidableEq, Repr

/-- Observable outcome of one webhook delivery: HTTP status, the hook
invoked (if any), the resulting store, and the verification warnings. -/
structure HandlerOutcome where
  status : Nat
  hook : Option Hook
  store : TxStore
  logs : List String

/-- Python `str.lower()`, character by character (the statuses compared
against are ASCII). -/
def pyLower (s : String) : String :=
  String.mk (s.toList.map Char.toLower)

/-- `str(payload.get("payment_status", "")).lower()`: the parsed intended
transition of a webhook delivery. -/
def parsed_status (payload : Payload) : String :=
  pyLower (pyStr (payload.payment_status.getD (.str "")))

/-- `UrlPay.webhook_handler`: parse and lowercase `payment_status`
(defaulting a missing field to `""`), reject anything but
`"success"`/`"cancel"` with 400, verify, and on a truthy confirmed
payment id dispatch the hook matching the originally parsed status. -/
def webhook_handler (payload : Payload) (store : TxStore)
    (fetch : String → Option ProviderPayment) : HandlerOutcome :=
  let payment_status := parsed_status payload
  if payment_status ≠ "success" && payment_status ≠ "cancel" then
    ⟨400, none, store, []⟩
  else
    let v := verify_callback payload payment_status store fetch
    if !optStrTruthy v.result then ⟨400, none, v.store, v.logs⟩
    else
      let payment_id := v.result.getD ""
      if payment_status = "success" then
        ⟨200, some (.succeeded payment_id), v.store, v.logs⟩
      else
        ⟨200, some (.canceled payment_id), v.store, v.logs⟩

/-! ## Payment creation: amount rendering and the create call -/

/-- Decimal digits of a natural number, most significant first, with a fuel
argument that any `fuel > n` satisfies (models CPython rendering of an
integer). -/
def natToCharsAux : Nat → Nat → List Char
  | 0, _ => []
  | fuel + 1, n =>
    if n < 10 then [Char.ofNat (48 + n)]
    else natToCharsAux fuel (n / 10) ++ [Char.ofNat (48 + n % 10)]

/-- Decimal string of a natural number. -/
def natToString (n : Nat) : String :=
  String.mk (natToCharsAux (n + 1) n)

/-- Two-digit zero-padded rendering of a remainder below 100 — the
fractional part of a fixed-point 2-decimal amount. -/
def pad2 (r : Nat) : String :=
  (if r < 10 then "0" else "") ++ natToString r

/-- `Decimal(...).quantize(Decimal("0.01"), rounding=ROUND_HALF_UP)` on the
exact decimal `m / 10 ^ e`, returned as an integer number of hundredths.
ROUND_HALF_UP rounds ties away from zero. -/
def quantize2HalfUp (m : Int) (e : Nat) : Int :=
  if e ≤ 2 then m * (10 : Int) ^ (2 - e)
  else
    let d := (10 : Nat) ^ (e - 2)
    let q := ((2 * m.natAbs + d) / (2 * d) : Nat)
    if m < 0 then -(q : Int) else (q : Int)

/-- `format(amount, ".2f")` on a quantized amount of `cents` hundredths:
sign, integer part, a dot, and exactly two fractional digits. -/
def format_2f (cents : Int) : String :=
  (if cents < 0 then "-" else "") ++
    natToString (cents.natAbs / 100) ++ "." ++ pad2 (cents.natAbs % 100)

/-- The `amount_str` computed by `create_payment` from `data.price`. -/
def amount_str (m : Int) (e : Nat) : String :=
  format_2f (quantize2HalfUp m e)

/-- The UrlPay credential block of the configuration; each field is a
nullable string loaded from the environment. -/
structure UrlPayConfig where
  API_KEY : Option String
  SHOP_ID : Option String
  SECRET_KEY : Option String
  deriving DecidableEq, Repr

/-- `all([API_KEY, SHOP_ID, SECRET_KEY])`: every credential present and
non-empty. -/
def UrlPayConfig.credentialsOk (cfg : UrlPayConfig) : Bool :=
  optStrTruthy cfg.API_KEY && optStrTruthy cfg.SHOP_ID && optStrTruthy cfg.SECRET_KEY

/-- Environment of one `POST /v2/payments` exchange: HTTP status and the
`success`, `id` and `paymentUrl` fields of the JSON body. -/
structure CreateResponse where
  status : Nat
  success : Option JsonVal
  id : Option JsonVal
  paymentUrl : Option JsonVal
  deriving DecidableEq, Repr

/-- The outbound payment-creation request, as far as the claims observe it
(currency, rendered amount, correlation uuid, shop id, signature). -/
structure PaymentRequest where
  currency : String
  amount : String
  uuid : String
  shopId : Option String
  sign : String
  deriving DecidableEq, Repr

/-- Failure modes of `create_payment` (each a `RuntimeError` or `KeyError`
raised to the caller in the source). -/
inductive CreateError where
  | credentialsMissing
  | createFailed (status : Nat)
  | missingId
  | noPaymentUrl
  deriving DecidableEq, Repr

/-- Observable outcome of one `create_payment` call: the returned payment
URL or the error raised, the outbound request if one was attempted, and
the Transaction row created if any. -/
structure CreateResult where
  outcome : Except CreateError String
  request : Option PaymentRequest
  created : Option Transaction
  deriving Repr

/-! ## SHA-1 (model of `hashlib.sha1(...).hexdigest()`) and the signature -/

/-- Truncation to a 32-bit word. -/
def w32 (n : Nat) : Nat := n % 4294967296

/-- Left rotation of a 32-bit word by `k` bits. -/
def rotl (k n : Nat) : Nat := (n * 2 ^ k) % 4294967296 + n / 2 ^ (32 - k)

/-- UTF-8 encoding of one character (models `str.encode("utf-8")`). -/
def utf8EncodeChar (c : Char) : List Nat :=
  let n := c.toNat
  if n < 128 then [n]
  else if n < 2048 then [192 + n / 64, 128 + n % 64]
  else if n < 65536 then [224 + n / 4096, 128 + n / 64 % 64, 128 + n % 64]
  else [240 + n / 262144, 128 + n / 4096 % 64, 128 + n / 64 % 64, 128 + n % 64]

/-- UTF-8 bytes of a string. -/
def utf8Bytes (s : String) : List Nat :=
  s.toList.flatMap utf8EncodeChar

/-- `k` bytes of `n`, big-endian. -/
def beBytes (k : Nat) (n : Nat) : List Nat :=
  (List.range k).map fun i => n / 256 ^ (k - 1 - i) % 256

/-- SHA-1 message padding: a `0x80` byte, zeros to 56 mod 64, then the
64-bit big-endian bit length. -/
def sha1Pad (msg : List Nat) : List Nat :=
  msg ++ [128] ++ List.replicate ((119 - msg.length % 64) % 64) 0 ++
    beBytes 8 (8 * msg.length)

/-- Split a byte list into 64-byte blocks (fuel equals the list length). -/
def chunksAux : Nat → List Nat → List (List Nat)
  | 0, _ => []
  | _, [] => []
  | fuel + 1, l => l.take 64 :: chunksAux fuel (l.drop 64)

/-- 64-byte blocks of a padded message. -/
def chunks64 (l : List Nat) : List (List Nat) :=
  chunksAux l.length l

/-- The sixteen 32-bit big-endian words of one block. -/
def blockWords (block : List Nat) : List Nat :=
  (List.range 16).map fun i =>
    block.getD (4 * i) 0 * 16777216 + block.getD (4 * i + 1) 0 * 65536 +
      block.getD (4 * i + 2) 0 * 256 + block.getD (4 * i + 3) 0

/-- The 80-word SHA-1 message schedule. -/
def sha1Schedule (w16 : List Nat) : List Nat :=
  (List.range 80).foldl
    (fun acc t =>
      acc ++ [if t < 16 then w16.getD t 0
              else rotl 1 ((acc.getD (t - 3) 0) ^^^ (acc.getD (t - 8) 0) ^^^
                           (acc.getD (t - 14) 0) ^^^ (acc.getD (t - 16) 0))])
    []

/-- The SHA-1 round function for round `t`. -/
def sha1F (t b c d : Nat) : Nat :=
  if t < 20 then (b &&& c) ||| ((4294967295 - b) &&& d)
  else if t < 40 then b ^^^ c ^^^ d
  else if t < 60 then (b &&& c) ||| (b &&& d) ||| (c &&& d)
  else b ^^^ c ^^^ d

/-- The SHA-1 round constant for round `t`. -/
def sha1K (t : Nat) : Nat :=
  if t < 20 then 1518500249
  else if t < 40 then 1859775393
  else if t < 60 then 2400959708
  else 3395469782

/-- The five 32-bit chaining words of the SHA-1 state. -/
structure Sha1State where
  h0 : Nat
  h1 : Nat
  h2 : Nat
  h3 : Nat
  h4 : Nat
  deriving DecidableEq, Repr

/-- SHA-1 compression of one 64-byte block into the chaining state. -/
def sha1Block (st : Sha1State) (block : List Nat) : Sha1State :=
  let w := sha1Schedule (blockWords block)
  let res := (List.range 80).foldl
    (fun (s : Nat × Nat × Nat × Nat × Nat) t =>
      match s with
      | (a, b, c, d, e) =>
        (w32 (rotl 5 a + sha1F t b c d + e + sha1K t + w.getD t 0),
         a, rotl 30 b, c, d))
    (st.h0, st.h1, st.h2, st.h3, st.h4)
  match res with
  | (a, b, c, d, e) =>
    ⟨w32 (st.h0 + a), w32 (st.h1 + b), w32 (st.h2 + c),
     w32 (st.h3 + d), w32 (st.h4 + e)⟩

/-- A lowercase hexadecimal digit. -/
def hexDigitChar (n : Nat) : Char :=
  if n < 10 then Char.ofNat (48 + n) else Char.ofNat (87 + n)

/-- Eight lowercase hex digits of a 32-bit word, big-endian. -/
def toHex8 (n : Nat) : String :=
  String.mk ((List.range 8).map fun i => hexDigitChar (n / 16 ^ (7 - i) % 16))

/-- SHA-1 of a byte list as a 40-character lowercase hex digest. -/
def sha1Hex (msg : List Nat) : String :=
  let st := (chunks64 (sha1Pad msg)).foldl sha1Block
    ⟨1732584193, 4023233417, 2562383102, 271733878, 3285377520⟩
  toHex8 st.h0 ++ toHex8 st.h1 ++ toHex8 st.h2 ++ toHex8 st.h3 ++ toHex8 st.h4

/-- `UrlPay._generate_signature`: the SHA-1 hex digest of the UTF-8 bytes
of lowercased currency code, amount string, shop id and secret key,
concatenated in that order with no salt. -/
def generate_signature (currency_code amount shop_id secret_key : String) : String :=
  sha1Hex (utf8Bytes (pyLower currency_code ++ amount ++ shop_id ++ secret_key))

/-- `UrlPay.create_payment(data)`, with the provider exchange supplied as
`resp` and the freshly generated `uuid.uuid4()` as `order_uuid`: check
credentials before anything else, render the amount, build and sign the
request, and persist the PENDING Transaction only after a verified
successful response (HTTP 201, truthy `success`, an `id`, and a truthy
`paymentUrl`). -/
def create_payment (cfg : UrlPayConfig) (data : SubscriptionData)
    (order_uuid : String) (resp : CreateResponse) : CreateResult :=
  if !cfg.credentialsOk then ⟨.error .credentialsMissing, none, none⟩
  else
    let amount := amount_str data.price_m data.price_e
    let request : PaymentRequest :=
      { currency := "rub"
        amount := amount
        uuid := order_uuid
        shopId := cfg.SHOP_ID
        sign := generate_signature "RUB" amount (pyStrOfOptStr cfg.SHOP_ID)
          (pyStrOfOptStr cfg.SECRET_KEY) }
    if resp.status ≠ 201 || !pyTruthyOpt resp.success then
      ⟨.error (.createFailed resp.status), some request, none⟩
    else
      match resp.id with
      | none => ⟨.error .missingId, some request, none⟩
      | some idv =>
        let payment_id := pyStr idv
        if !pyTruthyOpt resp.paymentUrl then
          ⟨.error .noPaymentUrl, some request, none⟩
        else
          ⟨.ok (pyStr (resp.paymentUrl.getD .null)), some request,
           some { tg_id := data.user_id, subscription := data,
                  payment_id := payment_id, payment_uuid := some order_uuid,
                  status := .PENDING }⟩


/-! ## Concrete scenarios used to witness the theorems -/

/-- A sample subscription purchase: 1 device, 30 days, price 10.005. -/
def subD : SubscriptionData := ⟨1, 1, 30, 10005, 3⟩

/-- A stored Transaction for payment id `"42"` with bound uuid `"u"`. -/
def txOk : Transaction := ⟨1, subD, "42", some "u", .PENDING⟩

/-- A store holding only `txOk`. -/
def storeOk : TxStore := fun k => if k = "42" then some txOk else none

/-- A fetch environment confirming payment `"42"` with status 3. -/
def fetchOk : String → Option ProviderPayment :=
  fun k => if k = "42" then some ⟨some (.str "u"), some (.num 3), false⟩ else none

/-- A fetch environment for `"42"` whose uuid disagrees with the payload. -/
def fetchMismatch : String → Option ProviderPayment :=
  fun k => if k = "42" then some ⟨some (.str "OTHER"), some (.num 3), false⟩ else none

/-- A fetch environment for `"42"` reporting status 1 (not yet paid). -/
def fetchStatus1 : String → Option ProviderPayment :=
  fun k => if k = "42" then some ⟨some (.str "u"), some (.num 1), false⟩ else none

/-- A fetch environment that never confirms anything. -/
def fetchNone : String → Option ProviderPayment := fun _ => none

/-- A success webhook for payment `"42"` with matching uuid `"u"`. -/
def payloadOk : Payload := ⟨some (.str "success"), some (.str "42"), some (.str "u")⟩

/-- A success webhook for payment `"42"` with a different uuid `"u2"`. -/
def payloadWrongUuid : Payload := ⟨some (.str "success"), some (.str "42"), some (.str "u2")⟩

/-- A stored Transaction whose payment id is the empty string. -/
def txEmptyId : Transaction := ⟨1, subD, "", some "u", .PENDING⟩

/-- A store holding only `txEmptyId`. -/
def storeEmptyId : TxStore := fun k => if k = "" then some txEmptyId else none

/-- A fetch environment confirming the empty-string payment id. -/
def fetchEmptyId : String → Option ProviderPayment :=
  fun k => if k = "" then some ⟨some (.str "u"), some (.num 3), false⟩ else none

/-- A success webhook whose `id` field is the empty string. -/
def payloadEmptyId : Payload := ⟨some (.str "success"), some (.str ""), some (.str "u")⟩

/-- A stored Transaction for `"7"` whose `payment_uuid` is the empty
string: non-null, but falsy in Python. -/
def txBlankUuid : Transaction := ⟨1, subD, "7", some "", .PENDING⟩

/-- A store holding only `txBlankUuid`. -/
def storeBlankUuid : TxStore := fun k => if k = "7" then some txBlankUuid else none

/-- A fetch environment confirming payment `"7"` with status 3. -/
def fetchBlankUuid : String → Option ProviderPayment :=
  fun k => if k = "7" then some ⟨some (.str "u2"), some (.num 3), false⟩ else none

/-- A success webhook for payment `"7"` carrying uuid `"u2"`. -/
def payloadBlankUuid : Payload := ⟨some (.str "success"), some (.str "7"), some (.str "u2")⟩

/-- A stored Transaction for `"9"` with no `payment_uuid` bound yet. -/
def txUnbound : Transaction := ⟨1, subD, "9", none, .PENDING⟩

/-- A store holding only `txUnbound`. -/
def storeUnbound : TxStore := fun k => if k = "9" then some txUnbound else none

/-- A success webhook for payment `"9"` carrying uuid `"uu"`. -/
def payloadUnbound : Payload := ⟨some (.str "success"), some (.str "9"), some (.str "uu")⟩

/-- A fully configured credential block. -/
def cfgOk : UrlPayConfig := ⟨some "key", some "shop", some "sec"⟩

/-- A credential block with the shop id missing. -/
def cfgNoShop : UrlPayConfig := ⟨some "key", none, some "sec"⟩

/-- A successful provider response to payment creation. -/
def respOk : CreateResponse :=
  ⟨201, some (.bool true), some (.num 55), some (.str "https://pay.example/55")⟩

/-- A failed provider response to payment creation. -/
def respFail : CreateResponse := ⟨500, none, none, none⟩

/-! ## Helper lemmas -/

/-- Membership of a fetched status value in an int set holds only for the
matching number (or a Python bool equal to it). -/
theorem jsonInIntSet_iff (v : Option JsonVal) (s : List Int) :
    jsonInIntSet v s = true ↔
      (∃ n, v = some (.num n) ∧ n ∈ s) ∨
      (∃ b, v = some (.bool b) ∧ (if b then (1 : Int) else 0) ∈ s) := by
  cases v with
  | none => simp [jsonInIntSet]
  | some j =>
    cases j <;> simp [jsonInIntSet]

/-- Anatomy of an accepted verification: acceptance pins down the payload
identifiers, the Transaction lookup, the successful truthy fetch, and the
status-set membership whenever the parsed status maps to an expected set. -/
theorem verify_callback_accepts (payload : Payload) (ps : String) (store : TxStore)
    (fetch : String → Option ProviderPayment) (pid : String)
    (h : (verify_callback payload ps store fetch).result = some pid) :
    ∃ idv uv p, payload.id = some idv ∧ pid = pyStr idv ∧
      payload.uuid = some uv ∧ pyTruthy uv = true ∧
      (store (pyStr idv)).isSome = true ∧
      fetch (pyStr idv) = some p ∧ p.truthy = true ∧
      (∀ s, status_map ps = some s → jsonInIntSet p.status s = true) := by
  unfold verify_callback at h
  split at h
  · simp at h
  case _ payment_id_raw heqid =>
    refine ⟨payment_id_raw, ?_⟩
    split at h
    · simp at h
    case _ payment_uuid_val hequ =>
      refine Exists.intro payment_uuid_val ?_
      split at h
      · simp at h
      case _ htr =>
        simp only [Bool.not_eq_true', Bool.not_eq_false] at htr
        dsimp only at h
        split at h
        · simp at h
        case _ transaction hlook =>
          have hlook2 : store (pyStr payment_id_raw) = some transaction := hlook
          have hcore :
              ∀ tx st, (verify_rest ps payment_uuid_val (pyStr payment_id_raw)
                  tx st [] fetch).result = some pid →
                ∃ p, pid = pyStr payment_id_raw ∧
                  fetch (pyStr payment_id_raw) = some p ∧ p.truthy = true ∧
                  (∀ s, status_map ps = some s → jsonInIntSet p.status s = true) := by
            intro tx st hr
            unfold verify_rest at hr
            split at hr
            · simp at hr
            case _ payment hfetch =>
              split at hr
              · simp at hr
              case _ hpt =>
                simp only [Bool.not_eq_true', Bool.not_eq_false] at hpt
                dsimp only at hr
                have hmain : pid = pyStr payment_id_raw ∧
                    (∀ s, status_map ps = some s →
                      jsonInIntSet payment.status s = true) := by
                  cases hsm : status_map ps with
                  | none =>
                    rw [hsm] at hr
                    simp at hr
                    refine ⟨hr.symm, ?_⟩
                    intro s hs
                    simp [hsm] at hs
                  | some es =>
                    rw [hsm] at hr
                    by_cases hjs : jsonInIntSet payment.status es = true
                    · simp [hjs] at hr
                      refine ⟨hr.symm, ?_⟩
                      intro s hs
                      simp only [Option.some.injEq] at hs
                      subst hs
                      exact hjs
                    · have hjs2 : jsonInIntSet payment.status es = false := by
                        simpa using hjs
                      simp [hjs2] at hr
                exact ⟨payment, hmain.1, hfetch, hpt, hmain.2⟩
          split at h
          · split at h
            · simp at h
            · obtain ⟨p, hp1, hp2, hp3, hp4⟩ := hcore _ _ h
              exact ⟨p, heqid, hp1, hequ, htr, by simp [hlook2], hp2, hp3, hp4⟩
          · obtain ⟨p, hp1, hp2, hp3, hp4⟩ := hcore _ _ h
            exact ⟨p, heqid, hp1, hequ, htr, by simp [hlook2], hp2, hp3, hp4⟩

/-- A truthy nullable string is a non-empty `some`. -/
theorem optStrTruthy_eq_true (o : Option String) :
    optStrTruthy o = true ↔ ∃ s, o = some s ∧ s ≠ "" := by
  cases o <;> simp [optStrTruthy]

/-- Anatomy of a dispatched hook: the handler invoked a hook only when the
parsed status was `"success"` or `"cancel"`, verification under that parsed
status accepted a non-empty payment id, and the hook is the one matching the
parsed status at that id. -/
theorem webhook_handler_hook_some (payload : Payload) (store : TxStore)
    (fetch : String → Option ProviderPayment) (hk : Hook)
    (h : (webhook_handler payload store fetch).hook = some hk) :
    (parsed_status payload = "success" ∨ parsed_status payload = "cancel") ∧
    ∃ pid, (verify_callback payload (parsed_status payload) store fetch).result = some pid ∧
      pid ≠ "" ∧
      hk = (if parsed_status payload = "success" then Hook.succeeded pid
            else Hook.canceled pid) := by
  unfold webhook_handler at h
  dsimp only at h
  split at h
  · simp at h
  case _ hps =>
    have hps2 : parsed_status payload = "success" ∨ parsed_status payload = "cancel" := by
      by_cases h1 : parsed_status payload = "success"
      · exact Or.inl h1
      · by_cases h2 : parsed_status payload = "cancel"
        · exact Or.inr h2
        · exact absurd (by simp [h1, h2]) hps
    refine ⟨hps2, ?_⟩
    split at h
    · simp at h
    case _ htr =>
      simp only [Bool.not_eq_true', Bool.not_eq_false] at htr
      obtain ⟨s, hs, hne⟩ := (optStrTruthy_eq_true _).mp htr
      refine ⟨s, hs, hne, ?_⟩
      split at h
      case _ hsucc =>
        simp only [Option.some.injEq] at h
        rw [hsucc] at hs
        simp [hsucc, ← h, hs]
      case _ hsucc =>
        simp only [Option.some.injEq] at h
        simp [hsucc, ← h, hs]

/-! ## Claims -/

/-- C1: acceptance requires the freshly fetched record to carry the
authoritative numeric status matching the parsed transition — status 3 for
a dispatched success hook, one of 4, 5, 6 for a dispatched cancel hook; a
fetched status outside the expected set (or an absent status field, or a
failed fetch) means no hook is ever invoked, so the payload status field
alone is never sufficient for acceptance. -/
theorem urlpay_status_validation_authoritative (payload : Payload) (store : TxStore)
    (fetch : String → Option ProviderPayment) (pid : String) :
    ((webhook_handler payload store fetch).hook = some (.succeeded pid) →
      ∃ p, fetch pid = some p ∧ p.status = some (.num 3)) ∧
    ((webhook_handler payload store fetch).hook = some (.canceled pid) →
      ∃ p, fetch pid = some p ∧
        (p.status = some (.num 4) ∨ p.status = some (.num 5) ∨
          p.status = some (.num 6))) := by
  constructor
  · intro h
    obtain ⟨hps, pid0, hres, hne, hhk⟩ := webhook_handler_hook_some _ _ _ _ h
    by_cases hsucc : parsed_status payload = "success"
    · rw [hsucc] at hres
      rw [if_pos hsucc] at hhk
      injection hhk with hpid
      subst hpid
      obtain ⟨idv, uv, p, hid, hpid2, huv, htr, hsome, hfetch, hpt, hstat⟩ :=
        verify_callback_accepts _ _ _ _ _ hres
      have h3 := hstat [3] rfl
      rw [jsonInIntSet_iff] at h3
      rcases h3 with ⟨n, hn, hmem⟩ | ⟨b, hb, hmem⟩
      · simp only [List.mem_singleton] at hmem
        subst hmem
        exact ⟨p, by rw [hpid2]; exact hfetch, hn⟩
      · cases b <;> simp at hmem
    · rcases hps with h1 | h1
      · exact absurd h1 hsucc
      · rw [if_neg hsucc] at hhk
        cases hhk
  · intro h
    obtain ⟨hps, pid0, hres, hne, hhk⟩ := webhook_handler_hook_some _ _ _ _ h
    by_cases hsucc : parsed_status payload = "success"
    · rw [if_pos hsucc] at hhk
      cases hhk
    · rcases hps with h1 | h1
      · exact absurd h1 hsucc
      · rw [h1] at hres
        rw [if_neg hsucc] at hhk
        injection hhk with hpid
        subst hpid
        obtain ⟨idv, uv, p, hid, hpid2, huv, htr, hsome, hfetch, hpt, hstat⟩ :=
          verify_callback_accepts _ _ _ _ _ hres
        have h456 := hstat [4, 5, 6] rfl
        rw [jsonInIntSet_iff] at h456
        rcases h456 with ⟨n, hn, hmem⟩ | ⟨b, hb, hmem⟩
        · refine ⟨p, by rw [hpid2]; exact hfetch, ?_⟩
          simp only [List.mem_cons, List.mem_singleton] at hmem
          rcases hmem with rfl | rfl | rfl | hmem
          · exact Or.inl hn
          · exact Or.inr (Or.inl hn)
          · exact Or.inr (Or.inr hn)
          · simp at hmem
        · cases b <;> simp at hmem

/-- C1 witness: a delivery that does dispatch the success hook, at which
the theorem yields the authoritative status-3 fetch. -/
theorem urlpay_status_validation_authoritative_witness :
    ∃ p, fetchOk "42" = some p ∧ p.status = some (.num 3) :=
  (urlpay_status_validation_authoritative payloadOk storeOk fetchOk "42").1 (by decide)


/-- `verify_rest` never writes to the store: its resulting store is the one
it was given. -/
theorem verify_rest_store (ps : String) (uv : JsonVal) (pid : String)
    (tx : Transaction) (st : TxStore) (logs : List String)
    (fetch : String → Option ProviderPayment) :
    (verify_rest ps uv pid tx st logs fetch).store = st := by
  unfold verify_rest
  split
  · rfl
  · split
    · rfl
    · dsimp only
      split
      · rfl
      · split <;> rfl

/-- When the payload carries an `id` and a truthy `uuid` and the stored row
has a truthy `payment_uuid` equal to the payload uuid, verification
proceeds to the fetch/status phase on the unmodified row and store. -/
theorem verify_callback_verified_eq (payload : Payload) (ps : String)
    (store : TxStore) (fetch : String → Option ProviderPayment)
    (idv uv : JsonVal) (tx : Transaction)
    (hid : payload.id = some idv) (huv : payload.uuid = some uv)
    (htr : pyTruthy uv = true) (hlook : store (pyStr idv) = some tx)
    (htruthy : optStrTruthy tx.payment_uuid = true)
    (heq : tx.payment_uuid.getD "" = pyStr uv) :
    verify_callback payload ps store fetch =
      verify_rest ps uv (pyStr idv) tx store [] fetch := by
  unfold verify_callback
  rw [hid]
  dsimp only
  rw [huv]
  dsimp only
  rw [show TxStore.get_by_id store (pyStr idv) = some tx from hlook]
  simp [htr, htruthy, heq]

/-- When the payload carries an `id` and a truthy `uuid` and the stored row
has a truthy `payment_uuid` different from the payload uuid, verification
rejects at once, leaving the store untouched. -/
theorem verify_callback_mismatch_eq (payload : Payload) (ps : String)
    (store : TxStore) (fetch : String → Option ProviderPayment)
    (idv uv : JsonVal) (tx : Transaction)
    (hid : payload.id = some idv) (huv : payload.uuid = some uv)
    (htr : pyTruthy uv = true) (hlook : store (pyStr idv) = some tx)
    (htruthy : optStrTruthy tx.payment_uuid = true)
    (hne : tx.payment_uuid.getD "" ≠ pyStr uv) :
    verify_callback payload ps store fetch =
      ⟨none, store, ["uuid mismatch with database"]⟩ := by
  unfold verify_callback
  rw [hid]
  dsimp only
  rw [huv]
  dsimp only
  rw [show TxStore.get_by_id store (pyStr idv) = some tx from hlook]
  simp [htr, htruthy, hne]

/-- When the payload carries an `id` and a truthy `uuid` and the stored row
has a falsy `payment_uuid`, verification first commits the payload uuid to
the store and then proceeds to the fetch/status phase. -/
theorem verify_callback_bind_eq (payload : Payload) (ps : String)
    (store : TxStore) (fetch : String → Option ProviderPayment)
    (idv uv : JsonVal) (tx : Transaction)
    (hid : payload.id = some idv) (huv : payload.uuid = some uv)
    (htr : pyTruthy uv = true) (hlook : store (pyStr idv) = some tx)
    (hfal : optStrTruthy tx.payment_uuid = false) :
    verify_callback payload ps store fetch =
      verify_rest ps uv (pyStr idv) { tx with payment_uuid := some (pyStr uv) }
        (store.update (pyStr idv) (pyStr uv)) [] fetch := by
  unfold verify_callback
  rw [hid]
  dsimp only
  rw [huv]
  dsimp only
  rw [show TxStore.get_by_id store (pyStr idv) = some tx from hlook]
  simp [htr, hfal]

/-- A truthy fetch whose status passes validation (whenever validation
applies) is accepted by the fetch/status phase, and its logs are exactly
the advisory uuid cross-check warnings. -/
theorem verify_rest_accepts (ps : String) (uv : JsonVal) (pid : String)
    (tx : Transaction) (st : TxStore) (logs : List String)
    (fetch : String → Option ProviderPayment) (p : ProviderPayment)
    (hfetch : fetch pid = some p) (hpt : p.truthy = true)
    (hstat : ∀ s, status_map ps = some s → jsonInIntSet p.status s = true) :
    (verify_rest ps uv pid tx st logs fetch).result = some pid ∧
    (verify_rest ps uv pid tx st logs fetch).logs =
      logs ++
        (if pyTruthyOpt p.uuid && pyStr (p.uuid.getD .null) ≠ pyStr uv then
          ["uuid mismatch with API"] else []) ++
        (if optStrTruthy tx.payment_uuid && pyTruthyOpt p.uuid &&
            tx.payment_uuid.getD "" ≠ pyStr (p.uuid.getD .null) then
          ["uuid mismatch between database and API"] else []) := by
  unfold verify_rest
  rw [hfetch]
  dsimp only
  cases hsm : status_map ps with
  | none => simp [hpt, hsm]
  | some s =>
    have h2 := hstat s hsm
    simp [hpt, hsm, h2]

/-- A failed fetch, or a fetched status outside the expected set, makes the
fetch/status phase reject. -/
theorem verify_rest_rejects (ps : String) (uv : JsonVal) (pid : String)
    (tx : Transaction) (st : TxStore) (logs : List String)
    (fetch : String → Option ProviderPayment)
    (hbad : fetch pid = none ∨
      ∃ p, fetch pid = some p ∧
        ∃ s, status_map ps = some s ∧ jsonInIntSet p.status s = false) :
    (verify_rest ps uv pid tx st logs fetch).result = none := by
  unfold verify_rest
  rcases hbad with h | ⟨p, hp, s, hs, hbadp⟩
  · rw [h]
  · rw [hp]
    dsimp only
    by_cases hpt : p.truthy = true
    · simp [hpt, hs, hbadp]
    · simp only [Bool.not_eq_true] at hpt
      simp [hpt]

/-- C2 counterexample: a delivery whose `id` field is the empty string.
Verification accepts and returns the empty payment id, yet the handler
treats the falsy id as failure: HTTP 400 and no hook, contradicting the
claim that an accepted verification always dispatches a hook with 200. -/
theorem urlpay_webhook_dispatch_counterexample :
    parsed_status payloadEmptyId = "success" ∧
    (verify_callback payloadEmptyId "success" storeEmptyId fetchEmptyId).result = some "" ∧
    (webhook_handler payloadEmptyId storeEmptyId fetchEmptyId).status = 400 ∧
    (webhook_handler payloadEmptyId storeEmptyId fetchEmptyId).hook = none := by
  refine ⟨by decide, by decide, by decide, by decide⟩

/-- C2 (amended): the handler lowercases the payload status and rejects
with 400 unless it is exactly `"success"` or `"cancel"`; when verification
accepts a NON-EMPTY payment id under a valid parsed status, the handler
returns 200 and dispatches the hook matching the originally parsed status
(an accepted empty-string payment id is falsy in Python and is instead
rejected with 400). -/
theorem urlpay_webhook_parse_and_dispatch (payload : Payload) (store : TxStore)
    (fetch : String → Option ProviderPayment) :
    (parsed_status payload ≠ "success" ∧ parsed_status payload ≠ "cancel" →
      (webhook_handler payload store fetch).status = 400 ∧
      (webhook_handler payload store fetch).hook = none) ∧
    (∀ pid, (parsed_status payload = "success" ∨ parsed_status payload = "cancel") →
      (verify_callback payload (parsed_status payload) store fetch).result = some pid →
      pid ≠ "" →
      (webhook_handler payload store fetch).status = 200 ∧
      (webhook_handler payload store fetch).hook =
        some (if parsed_status payload = "success" then Hook.succeeded pid
              else Hook.canceled pid)) := by
  constructor
  · intro hbad
    unfold webhook_handler
    dsimp only
    rw [if_pos (by simp [hbad.1, hbad.2])]
    exact ⟨rfl, rfl⟩
  · intro pid hval hres hne
    unfold webhook_handler
    dsimp only
    have hcond : ¬ ((parsed_status payload ≠ "success" &&
        parsed_status payload ≠ "cancel") = true) := by
      rcases hval with h | h <;> rw [h] <;> decide
    rw [if_neg hcond, hres]
    have hne2 : (!optStrTruthy (some pid)) = false := by
      simp [optStrTruthy, hne]
    rw [if_neg (by simp [hne2])]
    by_cases hs : parsed_status payload = "success"
    · rw [if_pos hs, if_pos hs]
      exact ⟨rfl, rfl⟩
    · rw [if_neg hs, if_neg hs]
      exact ⟨rfl, rfl⟩

/-- C2 witness: a well-formed success delivery, at which the amended
theorem yields the 200 response and the success hook. -/
theorem urlpay_webhook_parse_and_dispatch_witness :
    (webhook_handler payloadOk storeOk fetchOk).status = 200 ∧
    (webhook_handler payloadOk storeOk fetchOk).hook = some (Hook.succeeded "42") := by
  obtain ⟨h1, h2⟩ := (urlpay_webhook_parse_and_dispatch payloadOk storeOk fetchOk).2
    "42" (Or.inl (by decide)) (by decide) (by decide)
  refine ⟨h1, ?_⟩
  rw [h2]
  decide

/-- C3 counterexample: a stored Transaction whose `payment_uuid` is the
empty string — set (non-null) but falsy in Python. The claim says a set
`payment_uuid` forces equality-or-reject and is never changed; the code
instead takes the bind branch, adopts the differing payload uuid `"u2"`,
and accepts. -/
theorem urlpay_payment_uuid_rebind_counterexample :
    txBlankUuid.payment_uuid = some "" ∧
    payloadBlankUuid.uuid = some (.str "u2") ∧
    storeBlankUuid "7" = some txBlankUuid ∧
    (verify_callback payloadBlankUuid "success" storeBlankUuid fetchBlankUuid).result =
      some "7" ∧
    (verify_callback payloadBlankUuid "success" storeBlankUuid fetchBlankUuid).store "7" =
      some { txBlankUuid with payment_uuid := some "u2" } := by
  refine ⟨rfl, rfl, rfl, by decide, by decide⟩

/-- C3 (amended): if the stored Transaction has a TRUTHY (non-null,
non-empty) `payment_uuid`, the webhook is rejected unless that value
equals the payload uuid under string comparison, and the store is left
untouched; if the stored `payment_uuid` is null OR EMPTY, the payload uuid
is adopted via an update; rows whose `payment_uuid` is truthy are never
modified by verification — the update only executes when the stored
`payment_uuid` is null or empty (falsy). -/
theorem urlpay_payment_uuid_bind_protocol (payload : Payload) (ps : String)
    (store : TxStore) (fetch : String → Option ProviderPayment) :
    (∀ k t, store k = some t → optStrTruthy t.payment_uuid = true →
      (verify_callback payload ps store fetch).store k = some t) ∧
    (∀ idv uv tx, payload.id = some idv → payload.uuid = some uv →
      pyTruthy uv = true → store (pyStr idv) = some tx →
      optStrTruthy tx.payment_uuid = true →
      tx.payment_uuid.getD "" ≠ pyStr uv →
      (verify_callback payload ps store fetch).result = none ∧
      (verify_callback payload ps store fetch).store = store) ∧
    (∀ idv uv tx, payload.id = some idv → payload.uuid = some uv →
      pyTruthy uv = true → store (pyStr idv) = some tx →
      optStrTruthy tx.payment_uuid = false →
      (verify_callback payload ps store fetch).store (pyStr idv) =
        some { tx with payment_uuid := some (pyStr uv) }) := by
  have hspec : (verify_callback payload ps store fetch).store = store ∨
      ∃ idv uv tx, payload.id = some idv ∧ payload.uuid = some uv ∧
        store (pyStr idv) = some tx ∧ optStrTruthy tx.payment_uuid = false ∧
        (verify_callback payload ps store fetch).store =
          store.update (pyStr idv) (pyStr uv) := by
    unfold verify_callback
    split
    · exact Or.inl rfl
    case _ idv hid =>
      dsimp only
      split
      · exact Or.inl rfl
      case _ uv huv =>
        split
        · exact Or.inl rfl
        · split
          · exact Or.inl rfl
          case _ tx hlook =>
            split
            · split
              · exact Or.inl rfl
              · exact Or.inl (verify_rest_store _ _ _ _ _ _ _)
            case _ hfal =>
              refine Or.inr ⟨idv, uv, tx, hid, huv, hlook, ?_, ?_⟩
              · simpa using hfal
              · exact verify_rest_store _ _ _ _ _ _ _
  refine ⟨?_, ?_, ?_⟩
  · intro k t hk htruthy
    rcases hspec with h | ⟨idv, uv, tx, hid, huv, hlook, hfal, h⟩
    · rw [h]; exact hk
    · rw [h]
      unfold TxStore.update
      by_cases hkp : k = pyStr idv
      · subst hkp
        rw [hk] at hlook
        injection hlook with hlook
        subst hlook
        rw [htruthy] at hfal
        cases hfal
      · simp [hkp, hk]
  · intro idv uv tx hid huv htr hlook htruthy hne
    rw [verify_callback_mismatch_eq payload ps store fetch idv uv tx hid huv htr
      hlook htruthy hne]
    exact ⟨rfl, rfl⟩
  · intro idv uv tx hid huv htr hlook hfal
    rw [verify_callback_bind_eq payload ps store fetch idv uv tx hid huv htr
      hlook hfal]
    rw [verify_rest_store]
    unfold TxStore.update
    simp [hlook]

/-- C3 witness: a delivery whose uuid disagrees with a truthy stored
`payment_uuid`, at which the amended theorem yields rejection with an
unmodified store. -/
theorem urlpay_payment_uuid_bind_protocol_witness :
    (verify_callback payloadWrongUuid "success" storeOk fetchOk).result = none ∧
    (verify_callback payloadWrongUuid "success" storeOk fetchOk).store = storeOk :=
  (urlpay_payment_uuid_bind_protocol payloadWrongUuid "success" storeOk fetchOk).2.1
    (.str "42") (.str "u2") txOk rfl rfl (by decide) (by decide) (by decide) (by decide)

/-- C4: once the identifiers are present, the Transaction found, the uuid
bound or verified, the fetch successful and the fetched status in the
expected set, the webhook is ACCEPTED regardless of what uuid the freshly
fetched record carries; a disagreement between the fetched uuid and the
payload uuid is only logged, never a reason for rejection. -/
theorem urlpay_uuid_crosscheck_advisory (payload : Payload) (ps : String)
    (store : TxStore) (fetch : String → Option ProviderPayment)
    (idv uv : JsonVal) (tx : Transaction) (p : ProviderPayment)
    (hid : payload.id = some idv) (huv : payload.uuid = some uv)
    (htr : pyTruthy uv = true)
    (hlook : store (pyStr idv) = some tx)
    (hbind : optStrTruthy tx.payment_uuid = false ∨
      tx.payment_uuid.getD "" = pyStr uv)
    (hfetch : fetch (pyStr idv) = some p) (hpt : p.truthy = true)
    (hstat : ∀ s, status_map ps = some s → jsonInIntSet p.status s = true) :
    (verify_callback payload ps store fetch).result = some (pyStr idv) ∧
    (pyTruthyOpt p.uuid = true → pyStr (p.uuid.getD .null) ≠ pyStr uv →
      "uuid mismatch with API" ∈ (verify_callback payload ps store fetch).logs) := by
  by_cases htruthy : optStrTruthy tx.payment_uuid = true
  · have heq : tx.payment_uuid.getD "" = pyStr uv := by
      rcases hbind with hfal | heq
      · rw [htruthy] at hfal; cases hfal
      · exact heq
    rw [verify_callback_verified_eq payload ps store fetch idv uv tx hid huv htr
      hlook htruthy heq]
    obtain ⟨h1, h2⟩ := verify_rest_accepts ps uv (pyStr idv) tx store [] fetch p
      hfetch hpt hstat
    refine ⟨h1, fun hu hneq => ?_⟩
    rw [h2]
    simp [hu, hneq]
  · have hfal : optStrTruthy tx.payment_uuid = false := by simpa using htruthy
    rw [verify_callback_bind_eq payload ps store fetch idv uv tx hid huv htr
      hlook hfal]
    obtain ⟨h1, h2⟩ := verify_rest_accepts ps uv (pyStr idv)
      { tx with payment_uuid := some (pyStr uv) }
      (store.update (pyStr idv) (pyStr uv)) [] fetch p hfetch hpt hstat
    refine ⟨h1, fun hu hneq => ?_⟩
    rw [h2]
    simp [hu, hneq]

/-- C4 witness: a confirmed status-3 fetch whose uuid disagrees with the
payload uuid; the theorem yields acceptance plus the advisory warning. -/
theorem urlpay_uuid_crosscheck_advisory_witness :
    (verify_callback payloadOk "success" storeOk fetchMismatch).result = some "42" ∧
    "uuid mismatch with API" ∈
      (verify_callback payloadOk "success" storeOk fetchMismatch).logs := by
  obtain ⟨h1, h2⟩ := urlpay_uuid_crosscheck_advisory payloadOk "success" storeOk
    fetchMismatch (.str "42") (.str "u") txOk
    ⟨some (.str "OTHER"), some (.num 3), false⟩
    rfl rfl (by decide) (by decide) (Or.inr (by decide)) (by decide) (by decide)
    (by
      intro s hs
      rw [show status_map "success" = some [3] from rfl] at hs
      cases hs
      decide)
  exact ⟨h1, h2 (by decide) (by decide)⟩

/-- C5: `fetch_payment` degrades to absence — `none` on a non-200 HTTP
status, a missing or falsy `success` flag, or a missing `payment` field —
and an absent authoritative re-fetch can never be accepted: verification
only ever accepts a payment id at which the fetch environment returned a
record. -/
theorem urlpay_fetch_absent_rejects :
    (∀ api_key resp, resp.status ≠ 200 ∨ pyTruthyOpt resp.success = false ∨
        resp.payment = none → fetch_payment api_key resp = none) ∧
    (∀ payload ps store fetch pid,
      (verify_callback payload ps store fetch).result = some pid →
      fetch pid ≠ none) := by
  constructor
  · intro api_key resp h
    unfold fetch_payment
    split
    · rfl
    · split
      · rfl
      case _ hstat =>
        split
        · rfl
        case _ hsucc =>
          rcases h with h | h | h
          · exact absurd h (by simpa using hstat)
          · rw [h] at hsucc
            simp at hsucc
          · exact h
  · intro payload ps store fetch pid hacc
    obtain ⟨idv, uv, p, hid, hpid, huv, htr, hsome, hfetch, hpt, hstat⟩ :=
      verify_callback_accepts payload ps store fetch pid hacc
    rw [hpid, hfetch]
    simp

/-- C5 witness: a 500 fetch response maps to absence, and the accepting
scenario indeed had a present fetch. -/
theorem urlpay_fetch_absent_rejects_witness :
    fetch_payment (some "key") ⟨500, some (.bool true), none⟩ = none ∧
    fetchOk "42" ≠ none :=
  ⟨urlpay_fetch_absent_rejects.1 (some "key") ⟨500, some (.bool true), none⟩
      (Or.inl (by decide)),
   urlpay_fetch_absent_rejects.2 payloadOk "success" storeOk fetchOk "42" (by decide)⟩

/-- C6: with any credential absent or empty, `create_payment` fails with
the configuration error before any outbound request is built or sent, and
no Transaction is created. -/
theorem urlpay_credentials_guard (cfg : UrlPayConfig) (data : SubscriptionData)
    (order_uuid : String) (resp : CreateResponse)
    (h : optStrTruthy cfg.API_KEY = false ∨ optStrTruthy cfg.SHOP_ID = false ∨
      optStrTruthy cfg.SECRET_KEY = false) :
    (create_payment cfg data order_uuid resp).outcome =
      .error .credentialsMissing ∧
    (create_payment cfg data order_uuid resp).request = none ∧
    (create_payment cfg data order_uuid resp).created = none := by
  have hcred : cfg.credentialsOk = false := by
    unfold UrlPayConfig.credentialsOk
    rcases h with h | h | h <;> simp [h]
  unfold create_payment
  rw [hcred]
  exact ⟨rfl, rfl, rfl⟩

/-- C6 witness: a configuration with the shop id missing. -/
theorem urlpay_credentials_guard_witness :
    (create_payment cfgNoShop subD "ouuid" respOk).outcome =
      .error .credentialsMissing ∧
    (create_payment cfgNoShop subD "ouuid" respOk).request = none ∧
    (create_payment cfgNoShop subD "ouuid" respOk).created = none :=
  urlpay_credentials_guard cfgNoShop subD "ouuid" respOk (Or.inr (Or.inl (by decide)))

/-- C7: a successful `create_payment` call persists exactly one
Transaction, carrying the provider-assigned id, the freshly generated
order uuid and status PENDING; every failing call persists nothing —
persistence strictly follows a verified successful response. -/
theorem urlpay_create_persists_only_on_success (cfg : UrlPayConfig)
    (data : SubscriptionData) (order_uuid : String) (resp : CreateResponse) :
    (∀ url, (create_payment cfg data order_uuid resp).outcome = .ok url →
      ∃ idv, resp.id = some idv ∧
        (create_payment cfg data order_uuid resp).created =
          some ⟨data.user_id, data, pyStr idv, some order_uuid, .PENDING⟩) ∧
    (∀ e, (create_payment cfg data order_uuid resp).outcome = .error e →
      (create_payment cfg data order_uuid resp).created = none) := by
  unfold create_payment
  split
  · exact ⟨fun url h => by simp at h, fun e h => rfl⟩
  · dsimp only
    split
    · exact ⟨fun url h => by simp at h, fun e h => rfl⟩
    · split
      · exact ⟨fun url h => by simp at h, fun e h => rfl⟩
      case _ idv hidv =>
        split
        · exact ⟨fun url h => by simp at h, fun e h => rfl⟩
        · exact ⟨fun url h => ⟨idv, hidv, rfl⟩, fun e h => by simp at h⟩

/-- C7 witness: a fully successful creation, at which the theorem yields
the persisted PENDING row. -/
theorem urlpay_create_persists_only_on_success_witness :
    ∃ idv, respOk.id = some idv ∧
      (create_payment cfgOk subD "ouuid" respOk).created =
        some ⟨subD.user_id, subD, pyStr idv, some "ouuid", .PENDING⟩ :=
  (urlpay_create_persists_only_on_success cfgOk subD "ouuid" respOk).1
    "https://pay.example/55" (by rfl)

/-- The character of a decimal digit is a digit character. -/
theorem digitChar_isDigit : ∀ n, n < 10 → (Char.ofNat (48 + n)).isDigit = true := by
  decide

/-- Every character produced by the decimal renderer is a digit. -/
theorem natToCharsAux_isDigit :
    ∀ fuel n, ∀ c ∈ natToCharsAux fuel n, c.isDigit = true := by
  intro fuel
  induction fuel with
  | zero => intro n c hc; simp [natToCharsAux] at hc
  | succ f ih =>
    intro n c hc
    unfold natToCharsAux at hc
    split at hc
    case _ hlt =>
      simp only [List.mem_singleton] at hc
      subst hc
      exact digitChar_isDigit n hlt
    case _ hge =>
      rw [List.mem_append] at hc
      rcases hc with hc | hc
      · exact ih _ c hc
      · simp only [List.mem_singleton] at hc
        subst hc
        exact digitChar_isDigit _ (Nat.mod_lt _ (by decide))

/-- Every character of the decimal string of a natural number is a digit. -/
theorem natToString_isDigit (n : Nat) : ∀ c ∈ (natToString n).data, c.isDigit = true :=
  natToCharsAux_isDigit (n + 1) n

/-- The two-digit fractional renderer always yields two characters. -/
theorem pad2_length : ∀ r, r < 100 → (pad2 r).length = 2 := by decide

/-- The two-digit fractional renderer yields digit characters only. -/
theorem pad2_isDigit : ∀ r, r < 100 → ∀ c ∈ (pad2 r).data, c.isDigit = true := by
  decide

/-- C8: `create_payment` renders the price by half-up rounding to two
decimals and fixed-point formatting: `10.005` becomes `"10.01"`, `10`
becomes `"10.00"`, and in general the rendered amount is an optional
minus sign and digits, a dot, and exactly two fractional digits — never
scientific notation. -/
theorem urlpay_amount_rendering :
    amount_str 10005 3 = "10.01" ∧
    amount_str 10 0 = "10.00" ∧
    (∀ m e, ∃ ip fr, amount_str m e = ip ++ "." ++ fr ∧ fr.length = 2 ∧
      (∀ c ∈ fr.data, c.isDigit = true) ∧
      (∀ c ∈ ip.data, c.isDigit = true ∨ c = Char.ofNat 45)) ∧
    (∀ cfg data order_uuid resp req,
      (create_payment cfg data order_uuid resp).request = some req →
      req.amount = amount_str data.price_m data.price_e) := by
  refine ⟨by decide, by decide, ?_, ?_⟩
  · intro m e
    refine ⟨(if quantize2HalfUp m e < 0 then "-" else "") ++
        natToString ((quantize2HalfUp m e).natAbs / 100),
      pad2 ((quantize2HalfUp m e).natAbs % 100), rfl,
      pad2_length _ (Nat.mod_lt _ (by decide)),
      fun c hc => pad2_isDigit _ (Nat.mod_lt _ (by decide)) c hc, ?_⟩
    intro c hc
    rw [String.data_append, List.mem_append] at hc
    rcases hc with hc | hc
    · by_cases hneg : quantize2HalfUp m e < 0
      · rw [if_pos hneg] at hc
        right
        simpa using hc
      · rw [if_neg hneg] at hc
        simp at hc
    · left
      exact natToString_isDigit _ c hc
  · intro cfg data order_uuid resp req hreq
    unfold create_payment at hreq
    split at hreq
    · simp at hreq
    · dsimp only at hreq
      split at hreq
      · simp only [Option.some.injEq] at hreq
        subst hreq
        rfl
      · split at hreq
        · simp only [Option.some.injEq] at hreq
          subst hreq
          rfl
        · split at hreq
          · simp only [Option.some.injEq] at hreq
            subst hreq
            rfl
          · simp only [Option.some.injEq] at hreq
            subst hreq
            rfl

/-- C8 witness: the concrete renderings and a concrete successful call
whose outbound request carries the rendered amount. -/
theorem urlpay_amount_rendering_witness :
    (∃ ip fr, amount_str 10005 3 = ip ++ "." ++ fr ∧ fr.length = 2 ∧
      (∀ c ∈ fr.data, c.isDigit = true) ∧
      (∀ c ∈ ip.data, c.isDigit = true ∨ c = Char.ofNat 45)) ∧
    ((create_payment cfgOk subD "ouuid" respOk).request.map PaymentRequest.amount =
      some (amount_str subD.price_m subD.price_e)) := by
  refine ⟨urlpay_amount_rendering.2.2.1 10005 3, ?_⟩
  have h := urlpay_amount_rendering.2.2.2 cfgOk subD "ouuid" respOk
  cases hreq : (create_payment cfgOk subD "ouuid" respOk).request with
  | none =>
    have hs : ((create_payment cfgOk subD "ouuid" respOk).request).isSome = true := by
      decide
    rw [hreq] at hs
    cases hs
  | some req => simp [h req hreq]

/-- C9: the signature is the lowercase SHA-1 hex digest of the UTF-8 bytes
of lowercased currency code, amount string, shop id and secret key
concatenated in order with no salt, and it is a pure deterministic
function: identical inputs always yield the identical digest. -/
theorem urlpay_signature_pure (c a s k c2 a2 s2 k2 : String) :
    generate_signature c a s k =
      sha1Hex (utf8Bytes (pyLower c ++ a ++ s ++ k)) ∧
    (c = c2 → a = a2 → s = s2 → k = k2 →
      generate_signature c a s k = generate_signature c2 a2 s2 k2) := by
  refine ⟨rfl, ?_⟩
  intro h1 h2 h3 h4
  rw [h1, h2, h3, h4]

/-- C9 witness: the theorem at one concrete credential set. -/
theorem urlpay_signature_pure_witness :
    generate_signature "RUB" "10.00" "shop" "sec" =
      sha1Hex (utf8Bytes (pyLower "RUB" ++ "10.00" ++ "shop" ++ "sec")) ∧
    generate_signature "RUB" "10.00" "shop" "sec" =
      generate_signature "RUB" "10.00" "shop" "sec" :=
  ⟨(urlpay_signature_pure "RUB" "10.00" "shop" "sec" "RUB" "10.00" "shop" "sec").1,
   (urlpay_signature_pure "RUB" "10.00" "shop" "sec" "RUB" "10.00" "shop" "sec").2
     rfl rfl rfl rfl⟩

/-- C10: when the webhook finds a Transaction with a falsy (null)
`payment_uuid`, the payload uuid is committed to the store before the
authoritative fetch; if the fetch then fails or the fetched status fails
validation, the delivery is rejected with HTTP 400 and no hook — yet the
newly bound `payment_uuid` remains committed in the store. -/
theorem urlpay_bind_persists_on_reject (payload : Payload) (store : TxStore)
    (fetch : String → Option ProviderPayment) (idv uv : JsonVal) (tx : Transaction)
    (hid : payload.id = some idv) (huv : payload.uuid = some uv)
    (htr : pyTruthy uv = true)
    (hps : parsed_status payload = "success" ∨ parsed_status payload = "cancel")
    (hlook : store (pyStr idv) = some tx)
    (hunbound : optStrTruthy tx.payment_uuid = false)
    (hbad : fetch (pyStr idv) = none ∨
      ∃ p, fetch (pyStr idv) = some p ∧
        ∃ s, status_map (parsed_status payload) = some s ∧
          jsonInIntSet p.status s = false) :
    (webhook_handler payload store fetch).status = 400 ∧
    (webhook_handler payload store fetch).hook = none ∧
    (webhook_handler payload store fetch).store (pyStr idv) =
      some { tx with payment_uuid := some (pyStr uv) } := by
  have hv := verify_callback_bind_eq payload (parsed_status payload) store fetch
    idv uv tx hid huv htr hlook hunbound
  have hrej : (verify_callback payload (parsed_status payload) store fetch).result =
      none := by
    rw [hv]
    exact verify_rest_rejects _ _ _ _ _ _ _ hbad
  have hstore : (verify_callback payload (parsed_status payload) store fetch).store =
      store.update (pyStr idv) (pyStr uv) := by
    rw [hv]
    exact verify_rest_store _ _ _ _ _ _ _
  unfold webhook_handler
  dsimp only
  have hcond : ¬ ((parsed_status payload ≠ "success" &&
      parsed_status payload ≠ "cancel") = true) := by
    rcases hps with h | h <;> rw [h] <;> decide
  rw [if_neg hcond, hrej]
  rw [if_pos (by decide : (!optStrTruthy none) = true)]
  refine ⟨rfl, rfl, ?_⟩
  dsimp only
  rw [hstore]
  unfold TxStore.update
  simp [hlook]

/-- C10 witness: an unbound Transaction, a success webhook, and a fetch
environment that never confirms: 400, no hook, binding committed. -/
theorem urlpay_bind_persists_on_reject_witness :
    (webhook_handler payloadUnbound storeUnbound fetchNone).status = 400 ∧
    (webhook_handler payloadUnbound storeUnbound fetchNone).hook = none ∧
    (webhook_handler payloadUnbound storeUnbound fetchNone).store "9" =
      some { txUnbound with payment_uuid := some "uu" } :=
  urlpay_bind_persists_on_reject payloadUnbound storeUnbound fetchNone
    (.str "9") (.str "uu") txUnbound rfl rfl (by decide) (Or.inl (by decide))
    (by decide) (by decide) (Or.inl rfl)

set_option maxRecDepth 4096 in
/-- The SHA-1 model agrees with the standard test vector for `"abc"`,
pinning `sha1Hex` to the algorithm `hashlib.sha1` implements. -/
theorem sha1Hex_test_vector :
    sha1Hex (utf8Bytes "abc") = "a9993e364706816aba3e25717850c26c9cd0d89d" := by
  decide
